import Mathlib

/-!
# Verification of `crates/consensus/src/receipt/receipts.rs`

A shallow embedding of the receipt data model of the `alloy` consensus
crate: the `Receipt` record, its bloom-caching wrapper `ReceiptWithBloom`,
the two-level `Receipts` collection, and the field-level binary codec
contract (`rlp_encode_fields_with_bloom` / `rlp_decode_fields_with_bloom`).

The wire is modelled as a `List Nat` of bytes.  The external primitive
codec (the `alloy_rlp` crate, out of scope of the repository under
verification) is modelled from the spec as a length-prefixed codec, one
encoder/decoder pair per field type.  Everything defined from the source
file keeps the source's names.
-/

namespace AlloyReceipt

/-- Modelled from the spec: the external tri-state execution-outcome value
`Eip658Value` (defined outside `src/`): exactly one of a boolean success
flag (post-EIP-658) or a 32-byte post-state root (pre-EIP-658), never both.
The root is modelled by its numeric value. -/
inductive Eip658Value : Type where
  | eip658 (success : Bool) : Eip658Value
  | postState (root : Nat) : Eip658Value
deriving DecidableEq, Repr

/-- Modelled from the spec: the external boolean coercion of the outcome.
The spec records the success flag as returned verbatim; the rule for the
post-state-root variant is an open question of the spec, modelled here as
`true` (the choice is irrelevant to every claim, which only concern
delegation). -/
def Eip658Value.coerce_status : Eip658Value → Bool
  | .eip658 b => b
  | .postState _ => true

/-- Modelled from the spec: the canonical `Log` of `alloy_primitives`
(external): an address, an ordered list of topics and a data payload.
Address and topics are modelled by their numeric values, data as bytes. -/
structure Log : Type where
  address : Nat
  topics : List Nat
  data : List Nat
deriving DecidableEq, Repr

/-- `Receipt` from the source: outcome, cumulative gas used and the
ordered log sequence, here at the canonical instantiation `T = Log`.
`cumulative_gas_used` is a `u128` in the source; no operation of the unit
performs arithmetic on it, so it is modelled as `Nat`. -/
structure Receipt : Type where
  status : Eip658Value
  cumulative_gas_used : Nat
  logs : List Log
deriving DecidableEq, Repr

/-- A bloom filter value: the external `Bloom` is a 2048-bit vector;
it is modelled by a natural number whose binary digits are the bits, so
that the bitwise union of two filters is `Nat.lor`. -/
abbrev Bloom : Type := Nat

/-- Modelled from the spec: the external hashing primitive of the bloom
(in `alloy_primitives`, out of scope, "assumed given"): maps one log item
(an address or a topic) to a filter with three bit positions set. -/
def m3_2048 (x : Nat) : Bloom :=
  (1 <<< (x % 2048)) ||| ((1 <<< ((x / 2048) % 2048)) ||| (1 <<< ((x / 4194304) % 2048)))

/-- Modelled from the spec: the per-log contribution to the bloom filter —
the address hashed into 3 bit positions, each topic hashed into 3 bit
positions, all OR-ed together. -/
def Log.bloom_contribution (l : Log) : Bloom :=
  l.topics.foldl (fun acc t => acc ||| m3_2048 t) (m3_2048 l.address)

/-- Modelled from the spec: the external `FromIterator` aggregation used by
`bloom_slow` (`self.logs.iter().map(Borrow::borrow).collect()`):
OR-aggregation, over every log, of the per-log contribution. -/
def bloomFromLogs (logs : List Log) : Bloom :=
  logs.foldl (fun acc l => acc ||| l.bloom_contribution) 0

/-- `Receipt::bloom_slow` from the source: collects the borrowed logs into
a bloom filter. -/
def Receipt.bloom_slow (r : Receipt) : Bloom :=
  bloomFromLogs r.logs

/-- `ReceiptWithBloom<T>` from the source: pairs an inner receipt value
with a bloom filter. -/
structure ReceiptWithBloom (R : Type) : Type where
  receipt : R
  logs_bloom : Bloom
deriving DecidableEq, Repr

/-- `Receipt::with_bloom` from the source: computes `bloom_slow` and
constructs the pair. -/
def Receipt.with_bloom (r : Receipt) : ReceiptWithBloom Receipt :=
  { logs_bloom := r.bloom_slow, receipt := r }

/-- `TxReceipt::status_or_post_state` for `Receipt` from the source:
returns the raw outcome. -/
def Receipt.status_or_post_state (r : Receipt) : Eip658Value :=
  r.status

/-- `TxReceipt::status` for `Receipt` from the source: the outcome coerced
to a boolean (`self.status.coerce_status()`).  Named `status_flag` because
the structure field `status` already takes the source's field name. -/
def Receipt.status_flag (r : Receipt) : Bool :=
  r.status.coerce_status

/-- `TxReceipt::bloom` for `Receipt` from the source: recomputes via
`bloom_slow`. -/
def Receipt.bloom (r : Receipt) : Bloom :=
  r.bloom_slow

/-- Modelled from the spec: the trait-level default `bloom_cheap` (the
`TxReceipt` trait lives outside `src/`): absent when no cache is held,
which is the case for a bare `Receipt`. -/
def Receipt.bloom_cheap (_r : Receipt) : Option Bloom :=
  none

/-- `From<ReceiptWithBloom<Self>> for Receipt<T>` from the source: consume
the structure, returning only the receipt. -/
def Receipt.fromWithBloom (receipt_with_bloom : ReceiptWithBloom Receipt) : Receipt :=
  receipt_with_bloom.receipt

/-- `TxReceipt::status_or_post_state` for `ReceiptWithBloom` from the
source: delegates to the inner receipt. -/
def ReceiptWithBloom.status_or_post_state (w : ReceiptWithBloom Receipt) : Eip658Value :=
  w.receipt.status_or_post_state

/-- `TxReceipt::status` for `ReceiptWithBloom` from the source: delegates
to the inner receipt. -/
def ReceiptWithBloom.status_flag (w : ReceiptWithBloom Receipt) : Bool :=
  w.receipt.status_flag

/-- `TxReceipt::bloom` for `ReceiptWithBloom` from the source: returns the
stored `logs_bloom` field, no recomputation. -/
def ReceiptWithBloom.bloom (w : ReceiptWithBloom Receipt) : Bloom :=
  w.logs_bloom

/-- `TxReceipt::bloom_cheap` for `ReceiptWithBloom` from the source:
`Some(self.logs_bloom)`. -/
def ReceiptWithBloom.bloom_cheap (w : ReceiptWithBloom Receipt) : Option Bloom :=
  some w.logs_bloom

/-- `TxReceipt::cumulative_gas_used` for `ReceiptWithBloom` from the
source: delegates to the inner receipt. -/
def ReceiptWithBloom.cumulative_gas_used (w : ReceiptWithBloom Receipt) : Nat :=
  w.receipt.cumulative_gas_used

/-- `TxReceipt::logs` for `ReceiptWithBloom` from the source: delegates to
the inner receipt. -/
def ReceiptWithBloom.logs (w : ReceiptWithBloom Receipt) : List Log :=
  w.receipt.logs

/-- `From<R> for ReceiptWithBloom<R>` from the source, at `R = Receipt`:
computes `receipt.bloom()` and constructs the pair. -/
def ReceiptWithBloom.fromReceipt (receipt : Receipt) : ReceiptWithBloom Receipt :=
  { logs_bloom := receipt.bloom, receipt := receipt }

/-- `ReceiptWithBloom::new` from the source: plain constructor, no
validation of the bloom against the receipt's logs. -/
def ReceiptWithBloom.new {R : Type} (receipt : R) (logs_bloom : Bloom) :
    ReceiptWithBloom R :=
  { receipt := receipt, logs_bloom := logs_bloom }

/-- `ReceiptWithBloom::into_components` from the source: returns the
receipt and the bloom filter. -/
def ReceiptWithBloom.into_components {R : Type} (w : ReceiptWithBloom R) :
    R × Bloom :=
  (w.receipt, w.logs_bloom)

/-- `Receipts<T>` from the source: a two-dimensional vector of receipt
values. -/
structure Receipts (T : Type) : Type where
  receipt_vec : List (List T)
deriving DecidableEq, Repr

/-- The derived `Default` of `Receipts`: an empty outer vector. -/
def Receipts.default (T : Type) : Receipts T :=
  { receipt_vec := [] }

/-- `Receipts::len` from the source. -/
def Receipts.len {T : Type} (c : Receipts T) : Nat :=
  c.receipt_vec.length

/-- `Receipts::is_empty` from the source. -/
def Receipts.is_empty {T : Type} (c : Receipts T) : Bool :=
  c.receipt_vec.isEmpty

/-- `Receipts::push` from the source, in state-passing style: `Vec::push`
appends one block's sequence at the end. -/
def Receipts.push {T : Type} (c : Receipts T) (receipts : List T) : Receipts T :=
  { receipt_vec := c.receipt_vec ++ [receipts] }

/-- `From<Vec<T>> for Receipts<T>` from the source: a one-block
collection. -/
def Receipts.fromVec {T : Type} (block_receipts : List T) : Receipts T :=
  { receipt_vec := [block_receipts] }

/-! ## The external primitive codec, modelled from the spec

The low-level binary codec primitives (the `alloy_rlp` crate) are outside
the repository and "assumed given" by the spec.  They are modelled as a
length-prefixed codec over a byte list: every variable-width payload is
preceded by its length, decoders fail on truncated input (`inputTooShort`)
or on an unrecognizable discriminant (`unexpectedTag`). -/

/-- Modelled from the spec: the typed decode error of the external codec
(`alloy_rlp::Error`). -/
inductive RlpError : Type where
  | inputTooShort : RlpError
  | unexpectedTag : RlpError
deriving DecidableEq, Repr

/-- Modelled from the spec: the external length-prefixed encoding of an
unsigned integer — the length of the base-256 digit string, then the
digits. -/
def encNat (n : Nat) : List Nat :=
  (Nat.digits 256 n).length :: Nat.digits 256 n

/-- Modelled from the spec: the external decoder of an unsigned integer:
reads the length prefix, then that many bytes; fails on truncation. -/
def decNat (buf : List Nat) : Except RlpError (Nat × List Nat) :=
  match buf with
  | [] => .error .inputTooShort
  | len :: rest =>
      if rest.length < len then .error .inputTooShort
      else .ok (Nat.ofDigits 256 (rest.take len), rest.drop len)

/-- Modelled from the spec: the external encoding of the outcome value —
a discriminant byte (0: post-EIP-658 flag, 1: pre-EIP-658 root) followed
by the variant's payload; the length-based wire discriminant of the real
format is modelled by the tag byte. -/
def encStatus : Eip658Value → List Nat
  | .eip658 b => [0, cond b 1 0]
  | .postState root => 1 :: encNat root

/-- Modelled from the spec: the external decoder of the outcome value. -/
def decStatus (buf : List Nat) : Except RlpError (Eip658Value × List Nat) :=
  match buf with
  | 0 :: 1 :: rest => .ok (.eip658 true, rest)
  | 0 :: 0 :: rest => .ok (.eip658 false, rest)
  | 0 :: _ :: _ => .error .unexpectedTag
  | 1 :: rest =>
      match decNat rest with
      | .ok (root, rest2) => .ok (.postState root, rest2)
      | .error e => .error e
  | [] => .error .inputTooShort
  | [0] => .error .inputTooShort
  | _ => .error .unexpectedTag

/-- Modelled from the spec: the external encoding of a bloom filter — the
fixed-size bit vector "encoded as a fixed-length byte string", here via
the integer codec of its value. -/
def encBloom (b : Bloom) : List Nat :=
  encNat b

/-- Modelled from the spec: the external decoder of a bloom filter. -/
def decBloom (buf : List Nat) : Except RlpError (Bloom × List Nat) :=
  decNat buf

/-- Modelled from the spec: the external encoding of one log — address,
then the topic list (count-prefixed), then the data payload
(length-prefixed). -/
def encLog (l : Log) : List Nat :=
  encNat l.address
    ++ (l.topics.length :: (l.topics.map encNat).flatten)
    ++ (l.data.length :: l.data)

/-- Decodes `n` consecutive items with the item decoder `dec`. -/
def decMany {α : Type} (dec : List Nat → Except RlpError (α × List Nat)) :
    Nat → List Nat → Except RlpError (List α × List Nat)
  | 0, buf => .ok ([], buf)
  | n + 1, buf =>
      match dec buf with
      | .error e => .error e
      | .ok (x, buf2) =>
          match decMany dec n buf2 with
          | .error e => .error e
          | .ok (xs, buf3) => .ok (x :: xs, buf3)

/-- Modelled from the spec: the external decoder of one log. -/
def decLog (buf : List Nat) : Except RlpError (Log × List Nat) :=
  match decNat buf with
  | .error e => .error e
  | .ok (address, buf2) =>
      match buf2 with
      | [] => .error .inputTooShort
      | tcount :: buf3 =>
          match decMany decNat tcount buf3 with
          | .error e => .error e
          | .ok (topics, buf4) =>
              match buf4 with
              | [] => .error .inputTooShort
              | dlen :: buf5 =>
                  if buf5.length < dlen then .error .inputTooShort
                  else .ok ({ address := address, topics := topics,
                              data := buf5.take dlen }, buf5.drop dlen)

/-- Modelled from the spec: the external encoding of the log list — the
count of logs, then each log's encoding in order. -/
def encLogs (logs : List Log) : List Nat :=
  logs.length :: (logs.map encLog).flatten

/-- Modelled from the spec: the external decoder of the log list. -/
def decLogs (buf : List Nat) : Except RlpError (List Log × List Nat) :=
  match buf with
  | [] => .error .inputTooShort
  | count :: rest => decMany decLog count rest

/-! ## The field-level codec contract, from the source -/

/-- `RlpReceipt::rlp_encoded_fields_length_with_bloom` from the source:
the sum of the individually-encoded lengths of status, gas, bloom and
logs, in that order. -/
def Receipt.rlp_encoded_fields_length_with_bloom (r : Receipt) (bloom : Bloom) : Nat :=
  (encStatus r.status).length
    + (encNat r.cumulative_gas_used).length
    + (encBloom bloom).length
    + (encLogs r.logs).length

/-- `RlpReceipt::rlp_encode_fields_with_bloom` from the source: writes
the status, then the cumulative gas used, then the externally-supplied
bloom, then the logs, each via the external primitive codec; the `BufMut`
sink is modelled by concatenation. -/
def Receipt.rlp_encode_fields_with_bloom (r : Receipt) (bloom : Bloom) : List Nat :=
  encStatus r.status
    ++ encNat r.cumulative_gas_used
    ++ encBloom bloom
    ++ encLogs r.logs

/-- `RlpReceipt::rlp_decode_fields_with_bloom` from the source: decodes
status, cumulative gas used, bloom and logs in that order, propagating
the first decode error via `?`, and assembles the `ReceiptWithBloom`.
Returns the assembled value together with the unconsumed remainder of the
buffer (the source advances the `&mut &[u8]` cursor). -/
def rlp_decode_fields_with_bloom (buf : List Nat) :
    Except RlpError (ReceiptWithBloom Receipt × List Nat) :=
  match decStatus buf with
  | .error e => .error e
  | .ok (status, buf1) =>
      match decNat buf1 with
      | .error e => .error e
      | .ok (cumulative_gas_used, buf2) =>
          match decBloom buf2 with
          | .error e => .error e
          | .ok (logs_bloom, buf3) =>
              match decLogs buf3 with
              | .error e => .error e
              | .ok (logs, buf4) =>
                  .ok ({ receipt := { status := status,
                                      cumulative_gas_used := cumulative_gas_used,
                                      logs := logs },
                         logs_bloom := logs_bloom }, buf4)

/-- Modelled from the spec: the outer list framing supplied by the
`RlpReceipt` trait's provided `rlp_encode_with_bloom` (the trait body is
outside `src/`): a list-length prefix over the concatenated fields. -/
def rlp_encode_with_bloom (r : Receipt) (bloom : Bloom) : List Nat :=
  (r.rlp_encode_fields_with_bloom bloom).length :: r.rlp_encode_fields_with_bloom bloom

/-- Modelled from the spec: the outer framing decoder supplied by the
`RlpReceipt` trait's provided `rlp_decode_with_bloom` (outside `src/`):
reads the list header, decodes the four fields from the payload and
requires the payload to be fully consumed. -/
def rlp_decode_with_bloom (buf : List Nat) :
    Except RlpError (ReceiptWithBloom Receipt × List Nat) :=
  match buf with
  | [] => .error .inputTooShort
  | len :: rest =>
      if rest.length < len then .error .inputTooShort
      else
        match rlp_decode_fields_with_bloom (rest.take len) with
        | .error e => .error e
        | .ok (w, leftover) =>
            if leftover.isEmpty then .ok (w, rest.drop len)
            else .error .unexpectedTag

/-- `Encodable::encode` for `ReceiptWithBloom` from the source:
`self.receipt.rlp_encode_with_bloom(self.logs_bloom, out)`. -/
def ReceiptWithBloom.encode (w : ReceiptWithBloom Receipt) : List Nat :=
  rlp_encode_with_bloom w.receipt w.logs_bloom

/-- `Decodable::decode` for `ReceiptWithBloom` from the source:
`R::rlp_decode_with_bloom(buf)`. -/
def ReceiptWithBloom.decode (buf : List Nat) :
    Except RlpError (ReceiptWithBloom Receipt × List Nat) :=
  rlp_decode_with_bloom buf

/-! ## Round-trip lemmas for the primitive codec -/

lemma decNat_encNat (n : Nat) (rest : List Nat) :
    decNat (encNat n ++ rest) = .ok (n, rest) := by
  simp only [encNat, decNat, List.cons_append]
  rw [if_neg]
  · rw [List.take_left, List.drop_left, Nat.ofDigits_digits]
  · rw [List.length_append]; omega

lemma decStatus_encStatus (s : Eip658Value) (rest : List Nat) :
    decStatus (encStatus s ++ rest) = .ok (s, rest) := by
  cases s with
  | eip658 b => cases b <;> rfl
  | postState root =>
      simp only [encStatus, List.cons_append, decStatus, decNat_encNat]

lemma decMany_flatten {α : Type} (dec : List Nat → Except RlpError (α × List Nat))
    (f : α → List Nat) (h : ∀ x rest, dec (f x ++ rest) = .ok (x, rest))
    (xs : List α) (rest : List Nat) :
    decMany dec xs.length ((xs.map f).flatten ++ rest) = .ok (xs, rest) := by
  induction xs generalizing rest with
  | nil => simp [decMany]
  | cons x xs ih =>
      simp only [List.map_cons, List.flatten_cons, List.length_cons, List.append_assoc]
      rw [decMany, h x _]
      simp only
      rw [ih rest]

lemma decLog_encLog (l : Log) (rest : List Nat) :
    decLog (encLog l ++ rest) = .ok (l, rest) := by
  simp only [encLog, List.append_assoc, List.cons_append]
  rw [decLog, decNat_encNat]
  simp only
  rw [decMany_flatten decNat encNat decNat_encNat l.topics (l.data.length :: (l.data ++ rest))]
  simp only
  rw [if_neg (by rw [List.length_append]; omega)]
  rw [List.take_left, List.drop_left]

lemma decLogs_encLogs (logs : List Log) (rest : List Nat) :
    decLogs (encLogs logs ++ rest) = .ok (logs, rest) := by
  simp only [encLogs, List.cons_append, decLogs]
  exact decMany_flatten decLog encLog decLog_encLog logs rest

lemma rlp_decode_fields_encode_fields (r : Receipt) (bloom : Bloom) (rest : List Nat) :
    rlp_decode_fields_with_bloom (r.rlp_encode_fields_with_bloom bloom ++ rest) =
      .ok ({ receipt := r, logs_bloom := bloom }, rest) := by
  simp only [Receipt.rlp_encode_fields_with_bloom, List.append_assoc]
  rw [rlp_decode_fields_with_bloom, decStatus_encStatus]
  simp only
  rw [decNat_encNat]
  simp only
  rw [decBloom, encBloom, decNat_encNat]
  simp only
  rw [decLogs_encLogs]

lemma rlp_decode_encode_with_bloom (r : Receipt) (bloom : Bloom) :
    rlp_decode_with_bloom (rlp_encode_with_bloom r bloom) =
      .ok ({ receipt := r, logs_bloom := bloom }, []) := by
  rw [rlp_encode_with_bloom, rlp_decode_with_bloom]
  rw [if_neg (Nat.lt_irrefl _)]
  rw [List.take_length]
  have h := rlp_decode_fields_encode_fields r bloom []
  rw [List.append_nil] at h
  rw [h]
  simp only [List.isEmpty_nil, if_true, List.drop_length]

/-! ## Claim theorems -/

/-- C1: round-trip of the field-level codec: decoding the bytes produced
by `rlp_encode_fields_with_bloom r b` yields a `ReceiptWithBloom` whose
inner receipt equals `r` and whose bloom equals `b`; likewise encoding a
`ReceiptWithBloom` via `Encodable::encode` and decoding via
`Decodable::decode` yields the original value, the bloom taken verbatim
from the wire. -/
theorem c1_codec_round_trip :
    (∀ (r : Receipt) (b : Bloom),
      rlp_decode_fields_with_bloom (r.rlp_encode_fields_with_bloom b) =
        .ok ({ receipt := r, logs_bloom := b }, [])) ∧
    (∀ (w : ReceiptWithBloom Receipt),
      ReceiptWithBloom.decode w.encode = .ok (w, [])) := by
  constructor
  · intro r b
    have h := rlp_decode_fields_encode_fields r b []
    rwa [List.append_nil] at h
  · intro w
    exact rlp_decode_encode_with_bloom w.receipt w.logs_bloom

/-- C2: wire field order: `rlp_encode_fields_with_bloom` writes exactly
the status, the cumulative gas used, the bloom and the logs, in that
order and nothing else; `rlp_decode_fields_with_bloom` reads the same
four fields in the same order. -/
theorem c2_field_order :
    (∀ (r : Receipt) (b : Bloom),
      r.rlp_encode_fields_with_bloom b =
        encStatus r.status ++ encNat r.cumulative_gas_used ++ encBloom b
          ++ encLogs r.logs) ∧
    (∀ (s : Eip658Value) (g : Nat) (b : Bloom) (ls : List Log) (rest : List Nat),
      rlp_decode_fields_with_bloom
          (encStatus s ++ (encNat g ++ (encBloom b ++ (encLogs ls ++ rest)))) =
        .ok ({ receipt := { status := s, cumulative_gas_used := g, logs := ls },
               logs_bloom := b }, rest)) := by
  constructor
  · intro r b
    rfl
  · intro s g b ls rest
    have h := rlp_decode_fields_encode_fields
      { status := s, cumulative_gas_used := g, logs := ls } b rest
    simpa only [Receipt.rlp_encode_fields_with_bloom, List.append_assoc] using h

/-- C3: `bloom_slow` is a deterministic pure function of the logs
sequence; over logs `[a, b]` it equals `bloom_slow` over `[b, a]`, and
both equal the bitwise OR of the single-log blooms. -/
theorem c3_bloom_or_decomposition :
    (∀ (r r' : Receipt), r.logs = r'.logs → r.bloom_slow = r'.bloom_slow) ∧
    (∀ (s : Eip658Value) (g : Nat) (a b : Log),
      (Receipt.mk s g [a, b]).bloom_slow = (Receipt.mk s g [b, a]).bloom_slow ∧
      (Receipt.mk s g [a, b]).bloom_slow =
        (Receipt.mk s g [a]).bloom_slow ||| (Receipt.mk s g [b]).bloom_slow) := by
  constructor
  · intro r r' h
    simp only [Receipt.bloom_slow, h]
  · intro s g a b
    simp only [Receipt.bloom_slow, bloomFromLogs, List.foldl_cons, List.foldl_nil,
      Nat.zero_or]
    exact ⟨Nat.lor_comm _ _, trivial⟩

/-- C3 witness: two receipts that differ in status and gas but hold the
same logs have the same `bloom_slow`. -/
theorem c3_bloom_or_decomposition_witness :
    (Receipt.mk (.eip658 true) 0 []).bloom_slow =
      (Receipt.mk (.eip658 false) 5 []).bloom_slow :=
  c3_bloom_or_decomposition.1 (Receipt.mk (.eip658 true) 0 [])
    (Receipt.mk (.eip658 false) 5 []) rfl

/-- C4: both `Receipt::with_bloom` and `From<R> for ReceiptWithBloom`
produce a wrapper whose cached bloom equals `bloom_slow` on the same logs
and whose inner receipt is the original receipt. -/
theorem c4_cache_correctness :
    ∀ (r : Receipt),
      r.with_bloom.logs_bloom = r.bloom_slow ∧ r.with_bloom.receipt = r ∧
      (ReceiptWithBloom.fromReceipt r).logs_bloom = r.bloom_slow ∧
      (ReceiptWithBloom.fromReceipt r).receipt = r := by
  intro r
  exact ⟨rfl, rfl, rfl, rfl⟩

/-- C5: on `ReceiptWithBloom`, `bloom` returns the stored field and
`bloom_cheap` returns `some` of it (equal to `some (bloom w)`); on a bare
`Receipt`, `bloom` recomputes via `bloom_slow` and `bloom_cheap` is
absent. -/
theorem c5_cached_accessors :
    ∀ (w : ReceiptWithBloom Receipt) (r : Receipt),
      w.bloom = w.logs_bloom ∧ w.bloom_cheap = some w.logs_bloom ∧
      w.bloom_cheap = some w.bloom ∧
      r.bloom = r.bloom_slow ∧ r.bloom_cheap = none := by
  intro w r
  exact ⟨rfl, rfl, rfl, rfl, rfl⟩

/-- C6: the wrapper obtained from a receipt answers
`status_or_post_state`, `status`, `cumulative_gas_used` and `logs`
identically to the receipt itself — every wrapped operation delegates to
the inner receipt. -/
theorem c6_uniform_queries :
    ∀ (r : Receipt),
      (ReceiptWithBloom.fromReceipt r).status_or_post_state = r.status_or_post_state ∧
      (ReceiptWithBloom.fromReceipt r).status_flag = r.status_flag ∧
      (ReceiptWithBloom.fromReceipt r).cumulative_gas_used = r.cumulative_gas_used ∧
      (ReceiptWithBloom.fromReceipt r).logs = r.logs := by
  intro r
  exact ⟨rfl, rfl, rfl, rfl⟩

/-- C7: after `push v` the length grows by exactly one, the last block
equals `v` and the previously held blocks are unchanged; the default
collection is empty, and `is_empty` holds exactly when `len` is zero. -/
theorem c7_collection_invariants :
    ∀ (T : Type) (c : Receipts T) (v : List T),
      (c.push v).len = c.len + 1 ∧
      (c.push v).receipt_vec.getLast? = some v ∧
      (c.push v).receipt_vec.take c.len = c.receipt_vec ∧
      (Receipts.default T).len = 0 ∧
      (Receipts.default T).is_empty = true ∧
      (c.is_empty = true ↔ c.len = 0) := by
  intro T c v
  refine ⟨?_, ?_, ?_, rfl, rfl, ?_⟩
  · simp [Receipts.push, Receipts.len]
  · simp [Receipts.push]
  · exact List.take_left c.receipt_vec [v]
  · simp [Receipts.is_empty, Receipts.len, List.isEmpty_iff, List.length_eq_zero]

/-- C8: the decoder fails exactly when one of the four field decoders
fails, propagating that field's error unchanged, and succeeds — producing
a value — only when all four fields decode in order. -/
theorem c8_decode_failure :
    ∀ (buf : List Nat),
      (∀ e, decStatus buf = .error e →
        rlp_decode_fields_with_bloom buf = .error e) ∧
      (∀ s buf1 e, decStatus buf = .ok (s, buf1) → decNat buf1 = .error e →
        rlp_decode_fields_with_bloom buf = .error e) ∧
      (∀ s buf1 g buf2 e, decStatus buf = .ok (s, buf1) →
        decNat buf1 = .ok (g, buf2) → decBloom buf2 = .error e →
        rlp_decode_fields_with_bloom buf = .error e) ∧
      (∀ s buf1 g buf2 b buf3 e, decStatus buf = .ok (s, buf1) →
        decNat buf1 = .ok (g, buf2) → decBloom buf2 = .ok (b, buf3) →
        decLogs buf3 = .error e →
        rlp_decode_fields_with_bloom buf = .error e) ∧
      (∀ w rest, rlp_decode_fields_with_bloom buf = .ok (w, rest) →
        ∃ buf1 buf2 buf3,
          decStatus buf = .ok (w.receipt.status, buf1) ∧
          decNat buf1 = .ok (w.receipt.cumulative_gas_used, buf2) ∧
          decBloom buf2 = .ok (w.logs_bloom, buf3) ∧
          decLogs buf3 = .ok (w.receipt.logs, rest)) := by
  intro buf
  refine ⟨?_, ?_, ?_, ?_, ?_⟩
  · intro e h
    rw [rlp_decode_fields_with_bloom, h]
  · intro s buf1 e h1 h2
    rw [rlp_decode_fields_with_bloom, h1]
    simp only
    rw [h2]
  · intro s buf1 g buf2 e h1 h2 h3
    rw [rlp_decode_fields_with_bloom, h1]
    simp only
    rw [h2]
    simp only
    rw [h3]
  · intro s buf1 g buf2 b buf3 e h1 h2 h3 h4
    rw [rlp_decode_fields_with_bloom, h1]
    simp only
    rw [h2]
    simp only
    rw [h3]
    simp only
    rw [h4]
  · intro w rest h
    rw [rlp_decode_fields_with_bloom] at h
    cases h1 : decStatus buf with
    | error e => rw [h1] at h; exact absurd h (by simp)
    | ok p1 =>
      obtain ⟨s, buf1⟩ := p1
      rw [h1] at h
      simp only at h
      cases h2 : decNat buf1 with
      | error e => rw [h2] at h; exact absurd h (by simp)
      | ok p2 =>
        obtain ⟨g, buf2⟩ := p2
        rw [h2] at h
        simp only at h
        cases h3 : decBloom buf2 with
        | error e => rw [h3] at h; exact absurd h (by simp)
        | ok p3 =>
          obtain ⟨b, buf3⟩ := p3
          rw [h3] at h
          simp only at h
          cases h4 : decLogs buf3 with
          | error e => rw [h4] at h; exact absurd h (by simp)
          | ok p4 =>
            obtain ⟨ls, buf4⟩ := p4
            rw [h4] at h
            simp only [Except.ok.injEq, Prod.mk.injEq] at h
            obtain ⟨hw, hrest⟩ := h
            subst hw
            subst hrest
            exact ⟨buf1, buf2, buf3, rfl, h2, h3, h4⟩

/-- C8 witness: the empty input fails immediately with the status field's
`inputTooShort` error. -/
theorem c8_decode_failure_witness :
    rlp_decode_fields_with_bloom [] = .error .inputTooShort :=
  (c8_decode_failure []).1 .inputTooShort rfl

/-- C9: `new` stores the receipt and the bloom verbatim — for every bloom,
also one that disagrees with the logs — and `into_components` returns
exactly that pair; no validation happens. -/
theorem c9_new_into_components :
    (∀ (R : Type) (r : R) (b : Bloom),
      (ReceiptWithBloom.new r b).into_components = (r, b)) ∧
    (∃ (r0 : Receipt) (b0 : Bloom),
      b0 ≠ r0.bloom_slow ∧
      (ReceiptWithBloom.new r0 b0).into_components = (r0, b0)) := by
  constructor
  · intro R r b
    rfl
  · exact ⟨{ status := .eip658 true, cumulative_gas_used := 0, logs := [] }, 1,
      by decide, rfl⟩

/-- C10: `Receipt::from` on a `ReceiptWithBloom` returns the inner
receipt unchanged, so unwrapping after `with_bloom` is the identity. -/
theorem c10_lossless_unwrap :
    (∀ (w : ReceiptWithBloom Receipt), Receipt.fromWithBloom w = w.receipt) ∧
    (∀ (r : Receipt), Receipt.fromWithBloom r.with_bloom = r) := by
  exact ⟨fun _ => rfl, fun _ => rfl⟩

end AlloyReceipt
